import Mathlib

/-!
Shallow embedding of `src/tasks.ts` (rls-vscode task provider).

JavaScript values of type `string | undefined` are modelled as
`Option String`, with `none` standing for `undefined`.
-/

/-- Template-literal stringification: in `` `${x}` `` an `undefined`
value renders as the string `"undefined"`. -/
def jsTemplate : Option String → String
  | none => "undefined"
  | some s => s

/-- JS truthiness of a `string | undefined` value: truthy iff present
and non-empty. -/
def jsTruthy : Option String → Bool
  | none => false
  | some s => s != ""

/-- JS `a || b` on `string | undefined` values: `a` when truthy,
otherwise `b` (whatever `b` is, including `undefined`). -/
def jsOrElse (a b : Option String) : Option String :=
  if jsTruthy a then a else b

/-- `Execution` interface of `tasks.ts`: command execution parameters
sent by the RLS. `binary` is the deprecated field name. -/
structure Execution where
  binary : Option String := none
  command : Option String := none
  args : List String
  env : Option (List (String × String)) := none
  cwd : Option String := none
deriving DecidableEq

/-- Options passed to the `ShellExecution` constructor (`cwd`, `env`). -/
structure ShellExecutionOptions where
  cwd : Option String := none
  env : Option (List (String × String)) := none
deriving DecidableEq

/-- The two `vscode.ShellExecution` constructor forms used in
`tasks.ts`: a full command line, or a command plus argument list. -/
inductive ShellExec where
  | fromCommandLine (cl : String) (options : ShellExecutionOptions)
  | fromArgs (cmd : String) (args : List String) (options : ShellExecutionOptions)
deriving DecidableEq

/-- `ShellExecution.commandLine` of the VSCode API: the full command
line when the execution was built from one, `undefined` otherwise. -/
def ShellExec.commandLine : ShellExec → Option String
  | .fromCommandLine cl _ => some cl
  | .fromArgs _ _ _ => none

/-- The spec's "canonical command line" of an execution: the single
joined string form of program and arguments. -/
def ShellExec.canonicalCommandLine : ShellExec → String
  | .fromCommandLine cl _ => cl
  | .fromArgs cmd args _ => String.intercalate " " (cmd :: args)

/-- `createShellExecution` of `tasks.ts`:
`const cmdLine = ` `` `${command || binary} ${args.join(' ')}` ``;
`return new ShellExecution(cmdLine, { cwd, env });` -/
def createShellExecution (execution : Execution) : ShellExec :=
  let cmdLine :=
    jsTemplate (jsOrElse execution.command execution.binary) ++ " " ++
      String.intercalate " " execution.args
  ShellExec.fromCommandLine cmdLine { cwd := execution.cwd, env := execution.env }

/-- `vscode.WorkspaceFolder`, restricted to the fields `tasks.ts`
reads (`name`, `uri.fsPath`). -/
structure WorkspaceFolder where
  name : String
  fsPath : String
deriving DecidableEq

/-- `TaskGroup` constants of the VSCode API used in `tasks.ts`. -/
inductive TaskGroup where
  | Build
  | Test
  | Clean
deriving DecidableEq

/-- `CargoTaskDefinition` of `tasks.ts` (the shape of a cargo task in
tasks.json), including the `type` discriminator of `TaskDefinition`. -/
structure CargoTaskDefinition where
  type : String
  command : Option String := none
  args : Option (List String) := none
  cwd : Option String := none
  env : Option (List (String × String)) := none
deriving DecidableEq

/-- A `vscode.Task` as constructed by `tasks.ts`: definition, scope
(workspace folder), name, source, execution, problem matchers, group.
A task constructed without a matcher argument has `problemMatchers = []`
(the VSCode API default), and `group` is `none` unless assigned. -/
structure VsTask where
  definition : CargoTaskDefinition
  scope : WorkspaceFolder
  name : String
  source : String
  execution : ShellExec
  problemMatchers : List String := []
  group : Option TaskGroup := none
deriving DecidableEq

/-- The task handed to `resolveTask` by VSCode: `resolveCargoTask`
reads its `definition`, `name` and `problemMatchers` (the latter
guarded by `??`, hence modelled as possibly `undefined`). -/
structure TaskIn where
  definition : CargoTaskDefinition
  name : String
  problemMatchers : Option (List String) := none
deriving DecidableEq

/-- `TASK_SOURCE` of `tasks.ts`. -/
def TASK_SOURCE : String := "Rust"

/-- `TASK_TYPE` of `tasks.ts`. -/
def TASK_TYPE : String := "cargo"

/-- `resolveCargoTask` of `tasks.ts`: produce a task when
`definition.type === 'cargo' && definition.command` (truthy), else
`undefined` (NOT_HANDLED). Arguments are
`[definition.command].concat(definition.args ?? [])`, the program is
fixed to `'cargo'`, and the definition itself serves as the shell
options (its `cwd`/`env` fields). -/
def resolveCargoTask (task : TaskIn) (target : WorkspaceFolder) : Option VsTask :=
  let definition := task.definition
  if definition.type = "cargo" ∧ jsTruthy definition.command then
    some
      { definition := definition
        scope := target
        name := task.name
        source := TASK_SOURCE
        execution :=
          ShellExec.fromArgs "cargo"
            ((definition.command.getD "") :: definition.args.getD [])
            { cwd := definition.cwd, env := definition.env }
        problemMatchers := task.problemMatchers.getD ["$rustc"] }
  else
    none

/-- The fixed catalog list of `detectCargoTasks`: subcommand and
task group, in declaration order. -/
def cargoCatalog : List (String × Option TaskGroup) :=
  [("build", some TaskGroup.Build),
   ("check", some TaskGroup.Build),
   ("test", some TaskGroup.Test),
   ("clean", some TaskGroup.Clean),
   ("run", none)]

/-- `detectCargoTasks` of `tasks.ts`: maps each catalog entry to a
task labelled `` `cargo ${command} - ${target.name}` `` with a shell
execution built by `createShellExecution` from
`{ command: 'cargo', args: [command], cwd: target.uri.fsPath }`,
problem matchers `['$rustc']`, and the entry's group assigned
post-construction. -/
def detectCargoTasks (target : WorkspaceFolder) : List VsTask :=
  cargoCatalog.map fun p =>
    { definition := { type := TASK_TYPE, command := some p.1 }
      scope := target
      name := "cargo " ++ p.1 ++ " - " ++ target.name
      source := TASK_SOURCE
      execution :=
        createShellExecution
          { command := some "cargo", args := [p.1], cwd := some target.fsPath }
      problemMatchers := ["$rustc"]
      group := p.2 }

/-- `runRlsCommand` of `tasks.ts`: the task it submits via
`tasks.executeTask` (fire-and-forget advisory command). -/
def runRlsCommand_task (folder : WorkspaceFolder) (execution : Execution) : VsTask :=
  { definition := { type := "shell" }
    scope := folder
    name := "External RLS command"
    source := TASK_SOURCE
    execution := createShellExecution execution
    problemMatchers := ["$rustc"] }

/-- The correlation key of `runTaskCommand`:
`const commandLine = ` `` `${command} ${args.join(' ')}` ``. Only the
`command` field of the destructured `Execution` is used. -/
def runTaskCommand_commandLine (e : Execution) : String :=
  jsTemplate e.command ++ " " ++ String.intercalate " " e.args

/-- The task constructed by `runTaskCommand`: scope
`folder || workspace.workspaceFolders![0]` (`none` models the fatal
path where no workspace folder exists), shell execution from the
correlation command line with options
`{ cwd: cwd || (folder && folder.uri.fsPath), env }`, and no problem
matcher argument (hence the API default `[]`). -/
def runTaskCommand_task (e : Execution) (displayName : String)
    (folder : Option WorkspaceFolder) (workspaceFolders : List WorkspaceFolder) :
    Option VsTask :=
  match (if folder.isSome then folder else workspaceFolders.head?) with
  | none => none
  | some f =>
    some
      { definition := { type := "shell" }
        scope := f
        name := displayName
        source := TASK_SOURCE
        execution :=
          ShellExec.fromCommandLine (runTaskCommand_commandLine e)
            { cwd := if jsTruthy e.cwd then e.cwd else folder.map WorkspaceFolder.fsPath
              env := e.env }
        problemMatchers := [] }

/-- The execution carried by the task of a `TaskEndEvent`
(`event.execution.task.execution`): a shell execution, some other
execution kind (process/custom), or `undefined`. -/
inductive EndedTaskExecution where
  | shell (se : ShellExec)
  | other
  | undef
deriving DecidableEq

/-- The match test of `runTaskCommand`'s `onDidEndTask` listener:
`taskExecution instanceof ShellExecution && taskExecution.commandLine === commandLine`.
An `undefined` `commandLine` (args-form shell execution) never equals
the stored string key. -/
def taskEndMatches (commandLine : String) (ended : EndedTaskExecution) : Bool :=
  match ended with
  | .shell se =>
    match se.commandLine with
    | some cl => cl == commandLine
    | none => false
  | .other => false
  | .undef => false

/-- The pending completion of one awaited submission: whether the
`onDidEndTask` listener is still registered, and how many times
`resolve` has been called. -/
structure PendingCompletion where
  registered : Bool
  resolved : Nat
deriving DecidableEq

/-- State right after `runTaskCommand` registers its listener. -/
def correlatorInit : PendingCompletion :=
  { registered := true, resolved := 0 }

/-- One `onDidEndTask` notification delivered to the correlator: while
registered, an event matching the stored command line disposes the
listener and resolves the promise; anything else leaves the state
unchanged. -/
def correlatorStep (commandLine : String) (s : PendingCompletion)
    (ended : EndedTaskExecution) : PendingCompletion :=
  if s.registered ∧ taskEndMatches commandLine ended then
    { registered := false, resolved := s.resolved + 1 }
  else
    s

/-- The correlator after a sequence of "task ended" notifications. -/
def correlatorRun (commandLine : String) (events : List EndedTaskExecution) :
    PendingCompletion :=
  events.foldl (correlatorStep commandLine) correlatorInit

/-! ## Claims about the Execution Normalizer -/

/-- Claim C2 as stated is refuted: in the request
`{ command: "", binary: "cargo" }` the `command` field is set, yet the
normalization does not ignore `binary` — changing `binary` changes the
produced execution, because `command || binary` falls back on the
falsy empty string. -/
theorem c2_binary_not_ignored_counterexample :
    createShellExecution { binary := some "cargo", command := some "", args := [] } ≠
      createShellExecution { binary := none, command := some "", args := [] } := by
  decide

/-- Claim C2 (amended): for every request whose `command` is set to a
non-empty string, normalization ignores `binary` entirely; for every
request whose `command` is absent or empty and whose `binary` is set,
normalization uses `binary` as the program name. -/
theorem c2_prefer_command_fallback_binary :
    (∀ (e : Execution) (b : Option String), jsTruthy e.command = true →
      createShellExecution { e with binary := b } = createShellExecution e) ∧
    (∀ (e : Execution) (s : String), jsTruthy e.command = false → e.binary = some s →
      (createShellExecution e).commandLine =
        some (s ++ " " ++ String.intercalate " " e.args)) := by
  constructor
  · intro e b h
    simp [createShellExecution, jsOrElse, h]
  · intro e s h hb
    simp [createShellExecution, jsOrElse, h, hb, ShellExec.commandLine, jsTemplate]

/-- Witness for C2 at the concrete requests
`{ command: "cargo", binary: b, args: ["build"] }` and
`{ binary: "rustup", args: ["update"] }`. -/
theorem c2_prefer_command_fallback_binary_witness :
    createShellExecution
        { binary := none, command := some "cargo", args := ["build"] } =
      createShellExecution
        { binary := some "x", command := some "cargo", args := ["build"] } ∧
    (createShellExecution { binary := some "rustup", command := none, args := ["update"] }).commandLine =
      some ("rustup" ++ " " ++ String.intercalate " " ["update"]) :=
  ⟨c2_prefer_command_fallback_binary.1
      { binary := some "x", command := some "cargo", args := ["build"] } none (by decide),
   c2_prefer_command_fallback_binary.2
      { binary := some "rustup", command := none, args := ["update"] } "rustup"
      (by decide) rfl⟩

/-- Claim C8: the command line produced by `createShellExecution` ends
with the arguments joined by single spaces, verbatim. -/
theorem c8_commandLine_ends_with_args (e : Execution) :
    ∃ p : String,
      (createShellExecution e).commandLine =
        some (p ++ String.intercalate " " e.args) := by
  refine ⟨jsTemplate (jsOrElse e.command e.binary) ++ " ", ?_⟩
  simp [createShellExecution, ShellExec.commandLine, String.append_assoc]

/-- Claim C9: normalization is total — every request, including one
with both program fields absent, yields a `ShellExecution` built from
a full command line with the request's `cwd`/`env` passed through —
and when the resolved program name is the empty string the command
line begins with the empty token followed by the space separator. -/
theorem c9_no_error_path (e : Execution) :
    createShellExecution e =
      ShellExec.fromCommandLine
        (jsTemplate (jsOrElse e.command e.binary) ++ " " ++
          String.intercalate " " e.args)
        { cwd := e.cwd, env := e.env } ∧
    (jsOrElse e.command e.binary = some "" →
      (createShellExecution e).commandLine =
        some (" " ++ String.intercalate " " e.args)) := by
  constructor
  · rfl
  · intro h
    simp [createShellExecution, ShellExec.commandLine, h, jsTemplate]

/-- Witness for C9 at the request `{ binary: "", args: ["a"] }`, whose
resolved program name is empty. -/
theorem c9_no_error_path_witness :
    (createShellExecution { binary := some "", command := none, args := ["a"] }).commandLine =
      some " a" :=
  ((c9_no_error_path { binary := some "", command := none, args := ["a"] }).2
    (by decide)).trans (by decide)

/-! ## Claims about the Task Catalog and the Task Resolver -/

/-- String-append reassociation for the catalog labels. -/
theorem cargo_label_eq (c lab n : String) (h : "cargo " ++ c ++ " - " = lab) :
    "cargo " ++ (c ++ (" - " ++ n)) = lab ++ n := by
  rw [← String.append_assoc, ← String.append_assoc, h]

/-- Claim C3: for every project root, `detectCargoTasks` returns
exactly five tasks, with subcommands in the order
[build, check, test, clean, run], each labelled
"cargo (subcommand) - (root name)", with build and check in the build
group, test in the test group, clean in the clean group, and run in
no group. -/
theorem c3_detectCargoTasks_catalog (target : WorkspaceFolder) :
    (detectCargoTasks target).length = 5 ∧
    (detectCargoTasks target).map (fun t => t.definition.command) =
      [some "build", some "check", some "test", some "clean", some "run"] ∧
    (detectCargoTasks target).map VsTask.name =
      ["cargo build - " ++ target.name,
       "cargo check - " ++ target.name,
       "cargo test - " ++ target.name,
       "cargo clean - " ++ target.name,
       "cargo run - " ++ target.name] ∧
    (detectCargoTasks target).map VsTask.group =
      [some TaskGroup.Build, some TaskGroup.Build, some TaskGroup.Test,
       some TaskGroup.Clean, none] := by
  refine ⟨rfl, rfl, ?_, rfl⟩
  show ["cargo " ++ ("build" ++ (" - " ++ target.name)),
        "cargo " ++ ("check" ++ (" - " ++ target.name)),
        "cargo " ++ ("test" ++ (" - " ++ target.name)),
        "cargo " ++ ("clean" ++ (" - " ++ target.name)),
        "cargo " ++ ("run" ++ (" - " ++ target.name))] = _
  rw [cargo_label_eq "build" "cargo build - " target.name rfl,
    cargo_label_eq "check" "cargo check - " target.name rfl,
    cargo_label_eq "test" "cargo test - " target.name rfl,
    cargo_label_eq "clean" "cargo clean - " target.name rfl,
    cargo_label_eq "run" "cargo run - " target.name rfl]

/-- Claim C4: `resolveCargoTask` declines (returns `undefined`, i.e.
NOT_HANDLED) exactly when the definition's `type` is not `'cargo'` or
its `command` is absent or empty; it is total, so it never throws. -/
theorem c4_resolver_not_handled_iff (task : TaskIn) (target : WorkspaceFolder) :
    resolveCargoTask task target = none ↔
      task.definition.type ≠ "cargo" ∨ task.definition.command = none ∨
        task.definition.command = some "" := by
  unfold resolveCargoTask
  rcases h : task.definition.command with _ | s
  · simp [jsTruthy, h]
  · by_cases ht : task.definition.type = "cargo" <;>
      by_cases hs : s = "" <;>
      simp [jsTruthy, h, ht, hs]

/-- Claim C5: every resolvable definition (type `'cargo'`, non-empty
`command`) resolves to a task whose program is fixed to `'cargo'` and
whose arguments are the definition's `command` followed by its `args`
(defaulting to `[]`), with `cwd`/`env` taken from the definition; in
particular `{ type: 'cargo', command: "build", args: ["--release"] }`
yields the canonical command line "cargo build --release". -/
theorem c5_resolver_fixed_program_and_args :
    (∀ (task : TaskIn) (target : WorkspaceFolder) (c : String),
      task.definition.type = "cargo" → task.definition.command = some c → c ≠ "" →
      ∃ t, resolveCargoTask task target = some t ∧
        t.execution =
          ShellExec.fromArgs "cargo" (c :: task.definition.args.getD [])
            { cwd := task.definition.cwd, env := task.definition.env }) ∧
    ((resolveCargoTask
        { definition :=
            { type := "cargo", command := some "build", args := some ["--release"] },
          name := "example" }
        { name := "proj", fsPath := "/proj" }).map
        (fun t => t.execution.canonicalCommandLine) =
      some "cargo build --release") := by
  constructor
  · intro task target c htype hcmd hc
    have h : resolveCargoTask task target =
        some
          { definition := task.definition
            scope := target
            name := task.name
            source := TASK_SOURCE
            execution :=
              ShellExec.fromArgs "cargo"
                ((task.definition.command.getD "") :: task.definition.args.getD [])
                { cwd := task.definition.cwd, env := task.definition.env }
            problemMatchers := task.problemMatchers.getD ["$rustc"] } := by
      unfold resolveCargoTask
      rw [if_pos ⟨htype, by simp [jsTruthy, hcmd, hc]⟩]
    exact ⟨_, h, by simp [hcmd]⟩
  · decide

/-- Witness for C5: resolving `{ type: 'cargo', command: "doc" }`
produces the execution `cargo doc`. -/
theorem c5_resolver_fixed_program_and_args_witness :
    ∃ t,
      resolveCargoTask
          { definition := { type := "cargo", command := some "doc" }, name := "t" }
          { name := "proj", fsPath := "/proj" } = some t ∧
      t.execution = ShellExec.fromArgs "cargo" ["doc"] { cwd := none, env := none } :=
  c5_resolver_fixed_program_and_args.1
    { definition := { type := "cargo", command := some "doc" }, name := "t" }
    { name := "proj", fsPath := "/proj" } "doc" rfl rfl (by decide)

/-! ## Claims about the awaited submission path (runTaskCommand) -/

/-- Claim C1 as stated is refuted: for the request
`{ binary: "rustup", args: ["update"] }`, `runTaskCommand` builds the
command line from the `command` field alone (rendering the absent
field as "undefined"), while the 4.1 normalization
(`createShellExecution`) falls back to `binary` — the two paths
disagree. -/
theorem c1_awaited_path_counterexample :
    some (runTaskCommand_commandLine
        { binary := some "rustup", command := none, args := ["update"] }) ≠
      (createShellExecution
        { binary := some "rustup", command := none, args := ["update"] }).commandLine := by
  decide

/-- Claim C1 (amended): the canonical command line of the awaited path
is built from the `command` field only (no fallback to the deprecated
`binary` field) and is used both in the executed `ShellExecution` and
as the correlation key; it coincides with the 4.1 normalization
exactly for requests whose `command` is set and non-empty. -/
theorem c1_awaited_path_command_only :
    (∀ (e : Execution) (n : String) (f : Option WorkspaceFolder)
        (ws : List WorkspaceFolder) (t : VsTask),
      runTaskCommand_task e n f ws = some t →
      t.execution.commandLine = some (runTaskCommand_commandLine e)) ∧
    (∀ e : Execution, jsTruthy e.command = true →
      some (runTaskCommand_commandLine e) = (createShellExecution e).commandLine) := by
  constructor
  · intro e n f ws t h
    unfold runTaskCommand_task at h
    rcases hf : (if f.isSome then f else ws.head?) with _ | w
    · rw [hf] at h
      exact absurd h (by simp)
    · rw [hf] at h
      simp only [Option.some.injEq] at h
      rw [← h]
      rfl
  · intro e h
    simp [runTaskCommand_commandLine, createShellExecution, ShellExec.commandLine,
      jsOrElse, h]

/-- Witness for C1 at the request `{ command: "rustup", args: ["update"] }`
submitted with an explicit folder. -/
theorem c1_awaited_path_command_only_witness :
    ({ definition := { type := "shell" }
       scope := { name := "w", fsPath := "/w" }
       name := "setup"
       source := "Rust"
       execution :=
         ShellExec.fromCommandLine "rustup update" { cwd := some "/w", env := none }
       problemMatchers := [] } : VsTask).execution.commandLine =
      some (runTaskCommand_commandLine { command := some "rustup", args := ["update"] }) ∧
    some (runTaskCommand_commandLine { command := some "rustup", args := ["update"] }) =
      (createShellExecution { command := some "rustup", args := ["update"] }).commandLine :=
  ⟨c1_awaited_path_command_only.1 { command := some "rustup", args := ["update"] }
      "setup" (some { name := "w", fsPath := "/w" }) [] _ (by decide),
   c1_awaited_path_command_only.2 { command := some "rustup", args := ["update"] }
      (by decide)⟩

/-- Claim C7 as stated is refuted: the task constructed by the awaited
path (`runTaskCommand`) is built without a problem-matcher argument,
so its matcher list is empty and does not contain "$rustc". -/
theorem c7_awaited_no_matcher_counterexample :
    (runTaskCommand_task { command := some "rustup", args := ["update"] }
        "setup" (some { name := "w", fsPath := "/w" }) []).map VsTask.problemMatchers =
      some [] ∧ "$rustc" ∉ ([] : List String) := by
  exact ⟨by decide, by decide⟩

/-- Claim C7 (amended): catalog entries, fire-and-forget advisory
commands (`runRlsCommand`), and resolved definitions whose incoming
task carries no matcher list are all tagged with the single matcher
"$rustc" (a resolved task otherwise keeps its incoming matchers);
awaited submissions (`runTaskCommand`) carry an empty matcher list. -/
theorem c7_problem_matchers :
    (∀ (target : WorkspaceFolder) (t : VsTask),
      t ∈ detectCargoTasks target → t.problemMatchers = ["$rustc"]) ∧
    (∀ (folder : WorkspaceFolder) (e : Execution),
      (runRlsCommand_task folder e).problemMatchers = ["$rustc"]) ∧
    (∀ (task : TaskIn) (target : WorkspaceFolder) (t : VsTask),
      task.problemMatchers = none → resolveCargoTask task target = some t →
      t.problemMatchers = ["$rustc"]) ∧
    (∀ (e : Execution) (n : String) (f : Option WorkspaceFolder)
        (ws : List WorkspaceFolder) (t : VsTask),
      runTaskCommand_task e n f ws = some t → t.problemMatchers = []) := by
  refine ⟨?_, ?_, ?_, ?_⟩
  · intro target t ht
    unfold detectCargoTasks at ht
    obtain ⟨p, _, rfl⟩ := List.mem_map.mp ht
    rfl
  · intro folder e
    rfl
  · intro task target t hpm h
    unfold resolveCargoTask at h
    by_cases hc : task.definition.type = "cargo" ∧ jsTruthy task.definition.command
    · rw [if_pos hc] at h
      simp only [Option.some.injEq] at h
      rw [← h]
      simp [hpm]
    · rw [if_neg hc] at h
      exact absurd h (by simp)
  · intro e n f ws t h
    unfold runTaskCommand_task at h
    rcases hf : (if f.isSome then f else ws.head?) with _ | w
    · rw [hf] at h
      exact absurd h (by simp)
    · rw [hf] at h
      simp only [Option.some.injEq] at h
      rw [← h]

/-- Witness for C7 at concrete tasks on the project root
`{ name: "p", fsPath: "/p" }`. -/
theorem c7_problem_matchers_witness :
    ({ definition := { type := "cargo", command := some "build" }
       scope := { name := "p", fsPath := "/p" }
       name := "cargo build - p"
       source := "Rust"
       execution :=
         createShellExecution
           { command := some "cargo", args := ["build"], cwd := some "/p" }
       problemMatchers := ["$rustc"]
       group := some TaskGroup.Build } : VsTask).problemMatchers = ["$rustc"] ∧
    (runRlsCommand_task { name := "p", fsPath := "/p" }
        { command := some "cargo", args := ["check"] }).problemMatchers = ["$rustc"] ∧
    ({ definition := { type := "cargo", command := some "build" }
       scope := { name := "p", fsPath := "/p" }
       name := "b"
       source := "Rust"
       execution := ShellExec.fromArgs "cargo" ["build"] { cwd := none, env := none }
       problemMatchers := ["$rustc"] } : VsTask).problemMatchers = ["$rustc"] ∧
    ({ definition := { type := "shell" }
       scope := { name := "p", fsPath := "/p" }
       name := "setup"
       source := "Rust"
       execution :=
         ShellExec.fromCommandLine "rustup update" { cwd := some "/p", env := none }
       problemMatchers := [] } : VsTask).problemMatchers = [] :=
  ⟨c7_problem_matchers.1 { name := "p", fsPath := "/p" } _ (by decide),
   c7_problem_matchers.2.1 { name := "p", fsPath := "/p" }
      { command := some "cargo", args := ["check"] },
   c7_problem_matchers.2.2.1
      { definition := { type := "cargo", command := some "build" }, name := "b" }
      { name := "p", fsPath := "/p" } _ rfl (by decide),
   c7_problem_matchers.2.2.2 { command := some "rustup", args := ["update"] }
      "setup" (some { name := "p", fsPath := "/p" }) [] _ (by decide)⟩

/-! ## Claims about the Completion Correlator -/

/-- Once the listener is disposed, further "task ended" notifications
leave the correlator unchanged. -/
theorem correlator_unregistered_fixed (key : String)
    (events : List EndedTaskExecution) (s : PendingCompletion)
    (h : s.registered = false) :
    events.foldl (correlatorStep key) s = s := by
  induction events with
  | nil => rfl
  | cons ev rest ih =>
    have hstep : correlatorStep key s ev = s := by
      unfold correlatorStep
      rw [if_neg]
      simp [h]
    simp [List.foldl, hstep, ih]

/-- Along any notification sequence, the completion signal is
fulfilled at most once more than it already was. -/
theorem correlator_resolved_le (key : String)
    (events : List EndedTaskExecution) (s : PendingCompletion) :
    (events.foldl (correlatorStep key) s).resolved ≤ s.resolved + 1 := by
  induction events generalizing s with
  | nil => exact Nat.le_succ s.resolved
  | cons ev rest ih =>
    by_cases h : s.registered = true ∧ taskEndMatches key ev = true
    · have hstep : correlatorStep key s ev =
          { registered := false, resolved := s.resolved + 1 } := by
        unfold correlatorStep
        rw [if_pos]
        exact h
      simp only [List.foldl, hstep]
      rw [correlator_unregistered_fixed key rest _ rfl]
    · have hstep : correlatorStep key s ev = s := by
        unfold correlatorStep
        rw [if_neg]
        simpa using h
      simp only [List.foldl, hstep]
      exact ih s

/-- Claim C6: on a matching notification the registered correlator
deregisters and fulfills; on a mismatching one it stays as it is; the
completion is fulfilled at most once along any notification sequence;
and for two submissions with different command lines, a notification
carrying one submission's command line never advances the other's
correlator, while it does fulfill its own. -/
theorem c6_completion_correlation :
    (∀ (key : String) (s : PendingCompletion) (ev : EndedTaskExecution),
      s.registered = true → taskEndMatches key ev = true →
      correlatorStep key s ev = { registered := false, resolved := s.resolved + 1 }) ∧
    (∀ (key : String) (s : PendingCompletion) (ev : EndedTaskExecution),
      taskEndMatches key ev = false → correlatorStep key s ev = s) ∧
    (∀ (key : String) (events : List EndedTaskExecution),
      (correlatorRun key events).resolved ≤ 1) ∧
    (∀ (k1 k2 : String) (opts : ShellExecutionOptions) (s : PendingCompletion),
      k1 ≠ k2 →
      correlatorStep k1 s (.shell (.fromCommandLine k2 opts)) = s ∧
      (s.registered = true →
        correlatorStep k2 s (.shell (.fromCommandLine k2 opts)) =
          { registered := false, resolved := s.resolved + 1 })) := by
  have hmatch : ∀ (key : String) (s : PendingCompletion) (ev : EndedTaskExecution),
      s.registered = true → taskEndMatches key ev = true →
      correlatorStep key s ev = { registered := false, resolved := s.resolved + 1 } := by
    intro key s ev hr hm
    unfold correlatorStep
    rw [if_pos ⟨hr, hm⟩]
  have hmiss : ∀ (key : String) (s : PendingCompletion) (ev : EndedTaskExecution),
      taskEndMatches key ev = false → correlatorStep key s ev = s := by
    intro key s ev hm
    unfold correlatorStep
    rw [if_neg]
    simp [hm]
  refine ⟨hmatch, hmiss, ?_, ?_⟩
  · intro key events
    exact correlator_resolved_le key events correlatorInit
  · intro k1 k2 opts s hne
    constructor
    · refine hmiss k1 s _ ?_
      simp [taskEndMatches, ShellExec.commandLine]
      exact fun h => absurd h.symm hne
    · intro hr
      refine hmatch k2 s _ hr ?_
      simp [taskEndMatches, ShellExec.commandLine]
  
/-- Witness for C6 with keys "cargo build" and "cargo test". -/
theorem c6_completion_correlation_witness :
    correlatorStep "cargo build" correlatorInit
        (.shell (.fromCommandLine "cargo build" { cwd := none, env := none })) =
      { registered := false, resolved := 1 } ∧
    correlatorStep "cargo build" correlatorInit
        (.shell (.fromCommandLine "cargo test" { cwd := none, env := none })) =
      correlatorInit ∧
    (correlatorRun "cargo build"
        [.shell (.fromCommandLine "cargo build" { cwd := none, env := none }),
         .shell (.fromCommandLine "cargo build" { cwd := none, env := none })]).resolved ≤ 1 ∧
    correlatorStep "cargo test" correlatorInit
        (.shell (.fromCommandLine "cargo build" { cwd := none, env := none })) =
      correlatorInit :=
  ⟨c6_completion_correlation.1 "cargo build" correlatorInit _ rfl (by decide),
   c6_completion_correlation.2.1 "cargo build" correlatorInit _ (by decide),
   c6_completion_correlation.2.2.1 "cargo build" _,
   (c6_completion_correlation.2.2.2 "cargo test" "cargo build"
      { cwd := none, env := none } correlatorInit (by decide)).1⟩

/-- Claim C10: a "task ended" notification whose task's execution is
not a `ShellExecution` never changes the correlator (no resolution, no
deregistration); and whenever the correlator resolves, the
notification carried a `ShellExecution` built from a full command line
equal to the stored key. -/
theorem c10_only_matching_shell_resolves :
    (∀ (key : String) (s : PendingCompletion) (ev : EndedTaskExecution),
      (∀ se, ev ≠ EndedTaskExecution.shell se) → correlatorStep key s ev = s) ∧
    (∀ (key : String) (s : PendingCompletion) (ev : EndedTaskExecution),
      (correlatorStep key s ev).resolved ≠ s.resolved →
      ∃ opts, ev = EndedTaskExecution.shell (.fromCommandLine key opts)) := by
  constructor
  · intro key s ev hne
    unfold correlatorStep
    rw [if_neg]
    rintro ⟨-, hm⟩
    cases ev with
    | shell se => exact hne se rfl
    | other => exact absurd hm (by simp [taskEndMatches])
    | undef => exact absurd hm (by simp [taskEndMatches])
  · intro key s ev hch
    by_cases h : s.registered = true ∧ taskEndMatches key ev = true
    · cases ev with
      | shell se =>
        cases se with
        | fromCommandLine cl opts =>
          refine ⟨opts, ?_⟩
          have hcl : cl = key := by
            have := h.2
            simpa [taskEndMatches, ShellExec.commandLine] using this
          rw [hcl]
        | fromArgs cmd args opts =>
          exact absurd h.2 (by simp [taskEndMatches, ShellExec.commandLine])
      | other => exact absurd h.2 (by simp [taskEndMatches])
      | undef => exact absurd h.2 (by simp [taskEndMatches])
    · exfalso
      apply hch
      unfold correlatorStep
      rw [if_neg]
      simpa using h

/-- Witness for C10: a process/custom execution leaves the correlator
untouched, and a resolving notification carries the key itself. -/
theorem c10_only_matching_shell_resolves_witness :
    correlatorStep "cargo build" correlatorInit EndedTaskExecution.other =
      correlatorInit ∧
    ∃ opts,
      EndedTaskExecution.shell
          (.fromCommandLine "cargo build" { cwd := none, env := none }) =
        EndedTaskExecution.shell (.fromCommandLine "cargo build" opts) :=
  ⟨c10_only_matching_shell_resolves.1 "cargo build" correlatorInit
      EndedTaskExecution.other (by intro se h; cases h),
   c10_only_matching_shell_resolves.2 "cargo build" correlatorInit
      (EndedTaskExecution.shell
        (.fromCommandLine "cargo build" { cwd := none, env := none })) (by decide)⟩
